import Mathlib

/-!
Shallow embedding of the correlation relay of textgenhub
(src/textgenhub/chatgpt_extension_cli/cli/server.py) together with the two
client request drivers (cli/chatgpt_cli.py and chatgpt_tab_manager.py).

Modelling conventions:
- Connections are identified by natural numbers; the relay-global
  variables extension_ws, pending_requests and client_ws_list become the
  fields of ServerState.
- Python dict payloads become structures whose optional keys are Option
  fields (none = key absent, matching dict.get semantics).
- Wall-clock time: each wait-loop iteration is tagged with the elapsed
  seconds since the loop started; time.time() values are elided except
  through these elapsed tags.
- The correlation id of an inbound frame is modelled after the relay has
  already synthesized a fresh uuid for a missing messageId, so InData
  always carries a messageId string.
- Socket sends are modelled as an output list (Sent); a send to the
  executor can fail, which is modelled by the per-message fwdOk flag
  (the try/except around extension_ws.send in the source).
- Interleaving: other handlers run while a wait loop sleeps.  The only
  mutation those handlers perform on the pending-request table is the
  executor-response branch (handleResponse), so each loop iteration is
  preceded by a list of executor response envelopes that arrived during
  the suspension (LoopStep.arrivals).
-/

namespace TextGenHub

/-- Tab descriptor carried by debug_tabs responses. -/
structure Tab where
  id : Nat
  url : String
  title : String
  active : Bool
deriving Repr, DecidableEq

/-- Decoded fields of an inbound JSON frame; none models an absent key. -/
structure InData where
  msgType : String
  messageId : String
  request_type : Option String := none
  message : Option String := none
  output_format : Option String := none
  success : Option Bool := none
  error : Option String := none
  response : Option String := none
  html : Option String := none
  tabs : Option (List Tab) := none
  tab_count : Option Nat := none
deriving Repr, DecidableEq

/-- One entry of the pending_requests dict.  Keys that a given code path
never writes stay none, matching dict.get on a missing key. -/
structure PendingEntry where
  type : String
  message : Option String := none
  output_format : Option String := none
  client_ws : Nat
  start_time : Nat := 0
  response : Option String := none
  html : Option String := none
  success : Option Bool := none
  error : Option String := none
  tabs : Option (List Tab) := none
  tab_count : Option Nat := none
  received_at : Option Nat := none
deriving Repr, DecidableEq

/-- The pending_requests dict, as an association list keyed by messageId. -/
abbrev Table := List (String × PendingEntry)

def Table.find (t : Table) (mid : String) : Option PendingEntry :=
  match t with
  | [] => none
  | (k, e) :: rest => if k = mid then some e else Table.find rest mid

def Table.erase (t : Table) (mid : String) : Table :=
  match t with
  | [] => []
  | (k, e) :: rest => if k = mid then Table.erase rest mid else (k, e) :: Table.erase rest mid

/-- Dict assignment pending_requests[mid] = e (overwrites any previous binding). -/
def Table.insert (t : Table) (mid : String) (e : PendingEntry) : Table :=
  (mid, e) :: Table.erase t mid

/-- An envelope sent by the relay (dest is the receiving connection). -/
inductive Sent where
  | ack (dest : Nat) (mid : String) (status : String)
  | err (dest : Nat) (mid : String) (msg : String) (error_type : Option String)
  | response_focus (dest : Nat) (mid : String) (success : Bool) (error : Option String)
  | response_debug (dest : Nat) (mid : String) (tabs : List Tab) (tab_count : Nat)
  | response_inject (dest : Nat) (mid : String) (response : Option String) (html : Option String)
  | heartbeat (dest : Nat) (mid : String)
  | fwd (dest : Nat) (payloadType : String) (mid : String)
deriving Repr, DecidableEq

/-- Terminal envelopes are the error and response kinds; ack, heartbeat and
forwarded work orders are not terminal. -/
def Sent.isTerminal : Sent → Bool
  | .err .. => true
  | .response_focus .. => true
  | .response_debug .. => true
  | .response_inject .. => true
  | _ => false

def Sent.isAck : Sent → Bool
  | .ack .. => true
  | _ => false

def Sent.isHeartbeat : Sent → Bool
  | .heartbeat .. => true
  | _ => false

/-- Count of terminal envelopes in an output list. -/
def terminalCount (outs : List Sent) : Nat :=
  (outs.filter Sent.isTerminal).length

/-- The relay-global mutable state: extension_ws, pending_requests,
client_ws_list, plus the per-connection is_extension flags (registered
records every connection whose handler has set is_extension = True). -/
structure ServerState where
  extension_ws : Option Nat := none
  pending_requests : Table := []
  client_ws_list : List Nat := []
  registered : List Nat := []
deriving Repr, DecidableEq

/-- Handler branch for msg_type == "extension_register" (server.py lines
49-56): unconditionally overwrite extension_ws (last-writer-wins), mark
this handler as the extension, ack with status extension_registered. -/
def handleRegister (st : ServerState) (conn : Nat) (mid : String) : ServerState × List Sent :=
  ({ st with
      extension_ws := some conn,
      registered := if st.registered.contains conn then st.registered else conn :: st.registered },
   [.ack conn mid "extension_registered"])

/-- Handler branch for msg_type == "response" (server.py lines 58-79): if
the correlation id is pending, store the kind-specific result fields into
the entry; otherwise only a log line is printed — the state is unchanged
and nothing is sent. -/
def handleResponse (st : ServerState) (d : InData) (now : Nat) : ServerState × List Sent :=
  match st.pending_requests.find d.messageId with
  | none => (st, [])
  | some entry =>
      let entry' :=
        if entry.type = "focus_tab" then
          { entry with success := some (d.success.getD false), error := d.error,
                       received_at := some now }
        else if entry.type = "debug_tabs" then
          { entry with tabs := some (d.tabs.getD []), tab_count := some (d.tab_count.getD 0),
                       received_at := some now }
        else
          { entry with response := d.response, html := some (d.html.getD ""),
                       received_at := some now }
      ({ st with pending_requests := st.pending_requests.insert d.messageId entry' }, [])

/-- Outcome of the straight-line part of the cli_request branch, before
the wait loop (server.py lines 81-140). -/
inductive CliPre where
  | noExtension
  | forwardFailed (error_type : String)
  | unknownKind
  | enterLoop (timeout : Nat) (heartbeat_interval : Nat)
deriving Repr, DecidableEq

/-- Handler branch for msg_type == "cli_request" up to the wait loop
(server.py lines 81-140).  fwdOk models whether extension_ws.send raised.
Note the source sets timeout = 300 at line 135 for every request kind
reaching the wait loop, and on a forward failure it sends the error and
executes continue without deleting the freshly created entry. -/
def handleCliRequestPre (st : ServerState) (conn : Nat) (d : InData) (now : Nat)
    (fwdOk : Bool) : ServerState × List Sent × CliPre :=
  match st.extension_ws with
  | none =>
      (st, [.err conn d.messageId "No extension connected" (some "extension_not_connected")],
       .noExtension)
  | some ext =>
      let rt := d.request_type.getD "inject"
      let entry : PendingEntry :=
        { type := rt, message := d.message,
          output_format := some (d.output_format.getD "json"),
          client_ws := conn, start_time := now }
      let st1 := { st with pending_requests := st.pending_requests.insert d.messageId entry }
      let ackOut : Sent := .ack conn d.messageId "request_received"
      if rt = "inject" then
        if fwdOk then
          (st1, [ackOut, .fwd ext "inject" d.messageId], .enterLoop 300 10)
        else
          (st1, [ackOut, .err conn d.messageId "Failed to forward to extension"
                   (some "injection_failed")],
           .forwardFailed "injection_failed")
      else if rt = "focus_tab" ∨ rt = "debug_tabs" then
        if fwdOk then
          (st1, [ackOut, .fwd ext rt d.messageId], .enterLoop 300 10)
        else
          (st1, [ackOut, .err conn d.messageId "Failed to forward to extension"
                   (some (rt ++ "_failed"))],
           .forwardFailed (rt ++ "_failed"))
      else
        (st1, [ackOut, .err conn d.messageId ("Unknown request type: " ++ rt) none],
         .unknownKind)

/-- One iteration of a relay wait loop.  elapsed is time.time() -
start_time at the iteration; arrivals are the executor response envelopes
the event loop processed (through handleResponse) during the suspension
preceding this iteration. -/
structure LoopStep where
  elapsed : Nat
  arrivals : List InData := []
deriving Repr

/-- Apply the arrivals of a step to the state (other handlers running
while this one sleeps; handleResponse sends nothing). -/
def applyArrivals (st : ServerState) (step : LoopStep) : ServerState :=
  step.arrivals.foldl (fun s d => (handleResponse s d step.elapsed).1) st

/-- How the cli_request wait loop exited. -/
inductive LoopExit where
  | removed
  | timedOut
  | resolved
deriving Repr, DecidableEq

/-- Resolution check of the cli_request wait loop (server.py lines
164-189): depending on the entry kind, test whether the result slot has
been filled and build the terminal response envelope (sent to the
handler's own websocket, conn). -/
def resolveCheck (entry : PendingEntry) (conn : Nat) (mid : String) : Option Sent :=
  if entry.type = "focus_tab" then
    match entry.success with
    | some b => some (.response_focus conn mid b entry.error)
    | none => none
  else if entry.type = "debug_tabs" then
    match entry.tabs with
    | some ts => some (.response_debug conn mid ts (entry.tab_count.getD 0))
    | none => none
  else
    match entry.response with
    | some r => some (.response_inject conn mid (some r) entry.html)
    | none => none

/-- Heartbeat emission (send_heartbeat, server.py lines 23-31): look the
id up again and send to the entry's owning client_ws. -/
def heartbeatOut (st : ServerState) (mid : String) : List Sent :=
  match st.pending_requests.find mid with
  | some e => [.heartbeat e.client_ws mid]
  | none => []

/-- The cli_request wait loop (server.py lines 142-196), recursing over
the iteration schedule.  Per iteration, in source order: membership check
(line 145), timeout check elapsed > timeout (line 151) sending
response_timeout and deleting, heartbeat every 10s (line 159), then the
resolution check sending the terminal response and deleting (lines
164-189).  Result none in the exit slot = schedule exhausted while still
waiting. -/
def waitLoop (conn : Nat) (mid : String) (timeout : Nat) :
    Nat → ServerState → List LoopStep → ServerState × List Sent × Option LoopExit
  | _, st, [] => (st, [], none)
  | lastHb, st, step :: rest =>
      let st := applyArrivals st step
      match st.pending_requests.find mid with
      | none => (st, [], some .removed)
      | some entry =>
          if timeout < step.elapsed then
            ({ st with pending_requests := st.pending_requests.erase mid },
             [.err conn mid "Timeout waiting for response" (some "response_timeout")],
             some .timedOut)
          else
            let hbDue := lastHb + 10 ≤ step.elapsed
            let hbOuts : List Sent := if hbDue then heartbeatOut st mid else []
            let lastHb' := if hbDue then step.elapsed else lastHb
            match resolveCheck entry conn mid with
            | some out =>
                ({ st with pending_requests := st.pending_requests.erase mid },
                 hbOuts ++ [out], some .resolved)
            | none =>
                let w := waitLoop conn mid timeout lastHb' st rest
                (w.1, hbOuts ++ w.2.1, w.2.2)

/-- Straight-line part of the direct focus_tab branch (server.py lines
198-229): fast-fail without an extension, otherwise create the entry,
ack, and forward (error_type focus_failed on a transport error). -/
def handleFocusTabPre (st : ServerState) (conn : Nat) (mid : String) (now : Nat)
    (fwdOk : Bool) : ServerState × List Sent × Bool :=
  match st.extension_ws with
  | none =>
      (st, [.err conn mid "No extension connected" (some "extension_not_connected")], false)
  | some ext =>
      let entry : PendingEntry := { type := "focus_tab", client_ws := conn, start_time := now }
      let st1 := { st with pending_requests := st.pending_requests.insert mid entry }
      let ackOut : Sent := .ack conn mid "request_received"
      if fwdOk then
        (st1, [ackOut, .fwd ext "focus_tab" mid], true)
      else
        (st1, [ackOut, .err conn mid "Failed to forward to extension" (some "focus_failed")],
         false)

/-- The direct focus_tab wait loop (server.py lines 236-245).  Its body
contains only the elapsed > 30 timeout check and a sleep: it never reads
the pending-request table, never sends a success response and never
deletes the entry.  The Bool records whether the loop exited (as opposed
to the schedule running out while it still spins). -/
def focusWait (conn : Nat) (mid : String) :
    ServerState → List LoopStep → ServerState × List Sent × Bool
  | st, [] => (st, [], false)
  | st, step :: rest =>
      let st := applyArrivals st step
      if 30 < step.elapsed then
        (st, [.err conn mid "Timeout waiting for focus response" (some "focus_timeout")], true)
      else
        focusWait conn mid st rest

/-- Straight-line part of the direct debug_tabs branch (server.py lines
247-278), mirroring the focus_tab one with error_type debug_failed. -/
def handleDebugTabsPre (st : ServerState) (conn : Nat) (mid : String) (now : Nat)
    (fwdOk : Bool) : ServerState × List Sent × Bool :=
  match st.extension_ws with
  | none =>
      (st, [.err conn mid "No extension connected" (some "extension_not_connected")], false)
  | some ext =>
      let entry : PendingEntry := { type := "debug_tabs", client_ws := conn, start_time := now }
      let st1 := { st with pending_requests := st.pending_requests.insert mid entry }
      let ackOut : Sent := .ack conn mid "request_received"
      if fwdOk then
        (st1, [ackOut, .fwd ext "debug_tabs" mid], true)
      else
        (st1, [ackOut, .err conn mid "Failed to forward to extension" (some "debug_failed")],
         false)

/-- The direct debug_tabs wait loop (server.py lines 285-300): timeout
check at 10s, then the tabs-filled check which sends the response and
deletes the entry. -/
def debugWait (conn : Nat) (mid : String) :
    ServerState → List LoopStep → ServerState × List Sent × Bool
  | st, [] => (st, [], false)
  | st, step :: rest =>
      let st := applyArrivals st step
      if 10 < step.elapsed then
        (st, [.err conn mid "Timeout waiting for debug response" (some "debug_timeout")], true)
      else
        match st.pending_requests.find mid with
        | some e =>
            match e.tabs with
            | some ts =>
                ({ st with pending_requests := st.pending_requests.erase mid },
                 [.response_debug conn mid ts (e.tab_count.getD 0)], true)
            | none => debugWait conn mid st rest
        | none => debugWait conn mid st rest

/-- Dispatch of one decoded envelope (the if/elif chain of the handler,
server.py lines 44-300).  now and fwdOk are per-message oracles; steps is
the iteration schedule for whatever wait loop the message enters.  A
msg_type matching no branch falls through with no effect. -/
def processMessage (st : ServerState) (conn : Nat) (d : InData) (now : Nat)
    (fwdOk : Bool) (steps : List LoopStep) : ServerState × List Sent :=
  if d.msgType = "extension_register" then
    handleRegister st conn d.messageId
  else if d.msgType = "response" then
    handleResponse st d now
  else if d.msgType = "cli_request" then
    let p := handleCliRequestPre st conn d now fwdOk
    match p.2.2 with
    | .enterLoop timeout _ =>
        let w := waitLoop conn d.messageId timeout 0 p.1 steps
        (w.1, p.2.1 ++ w.2.1)
    | _ => (p.1, p.2.1)
  else if d.msgType = "focus_tab" then
    let p := handleFocusTabPre st conn d.messageId now fwdOk
    if p.2.2 then
      let w := focusWait conn d.messageId p.1 steps
      (w.1, p.2.1 ++ w.2.1)
    else (p.1, p.2.1)
  else if d.msgType = "debug_tabs" then
    let p := handleDebugTabsPre st conn d.messageId now fwdOk
    if p.2.2 then
      let w := debugWait conn d.messageId p.1 steps
      (w.1, p.2.1 ++ w.2.1)
    else (p.1, p.2.1)
  else
    (st, [])

/-- An inbound frame on a connection: either it fails json.loads, or it
decodes to d (with its per-message oracles and wait-loop schedule). -/
inductive Frame where
  | malformed
  | ok (d : InData) (now : Nat) (fwdOk : Bool) (steps : List LoopStep)

/-- The per-connection read loop (the async-for of server.py line 42
under the inner try of lines 41 and 301-305).  json.loads raising on a
malformed frame propagates out of the async-for to the inner except,
which logs and falls through: the read loop is over and the remaining
frames of the connection are never processed.  The third component
returns those unprocessed frames. -/
def readLoop (st : ServerState) (conn : Nat) :
    List Frame → ServerState × List Sent × List Frame
  | [] => (st, [], [])
  | .malformed :: rest => (st, [], rest)
  | .ok d now fwdOk steps :: rest =>
      let p := processMessage st conn d now fwdOk steps
      let r := readLoop p.1 conn rest
      (r.1, p.2 ++ r.2.1, r.2.2)

/-- The finally clause of the handler (server.py lines 312-320): if this
handler ever registered as the extension, clear the slot — regardless of
whether a later registration superseded it; otherwise drop the connection
from client_ws_list (which no code path ever appends to). -/
def handleDisconnect (st : ServerState) (conn : Nat) : ServerState :=
  if st.registered.contains conn then
    { st with extension_ws := none }
  else
    { st with client_ws_list := st.client_ws_list.filter (fun c => c ≠ conn) }

/-- Outcome of chatgpt_cli.py lines 24-34: the driver reads exactly one
frame after sending its cli_request and prints it as the result when its
type is response, else prints it as unexpected; no protocol error is
raised either way. -/
inductive CliDriverOutcome where
  | result (resp : Option String)
  | unexpected
deriving Repr, DecidableEq

/-- First-frame handling of chatgpt_cli.py (lines 26-34). -/
def cliDriverFirstFrame (d : InData) : CliDriverOutcome :=
  if d.msgType = "response" then .result d.response else .unexpected

/-- Per-frame action of ChatGPTTabManager.send_focus_request
(chatgpt_tab_manager.py lines 89-109): return on a matching response,
keep waiting on everything else (ack, error, heartbeat, other). -/
inductive DriverStep where
  | done (success : Bool)
  | keepWaiting
deriving Repr, DecidableEq

def focusDriverStep (mid : String) (d : InData) : DriverStep :=
  if d.messageId = mid ∧ d.msgType = "response" then .done (d.success.getD false)
  else .keepWaiting

/-- The receive loop of send_focus_request over the frames read before
the 5s budget runs out: return the first matching response, keep waiting
past everything else. -/
def focusDriverRun (mid : String) : List InData → Option Bool
  | [] => none
  | d :: rest =>
      match focusDriverStep mid d with
      | .done b => some b
      | .keepWaiting => focusDriverRun mid rest

/- Association-list lemmas for the pending-request table. -/

theorem Table.find_insert_self (t : Table) (mid : String) (e : PendingEntry) :
    (t.insert mid e).find mid = some e := by
  simp [Table.insert, Table.find]

theorem Table.find_erase_self (t : Table) (mid : String) :
    (t.erase mid).find mid = none := by
  induction t with
  | nil => simp [Table.erase, Table.find]
  | cons kv rest ih =>
      by_cases h : kv.1 = mid
      · simpa [Table.erase, h] using ih
      · simpa [Table.erase, Table.find, h] using ih

theorem Table.find_erase_ne (t : Table) (mid k : String) (hne : k ≠ mid) :
    (t.erase mid).find k = t.find k := by
  induction t with
  | nil => simp [Table.erase]
  | cons kv rest ih =>
      by_cases h : kv.1 = mid
      · have h3 : mid ≠ k := fun hh => hne hh.symm
        simp [Table.erase, Table.find, h, h3, ih]
      · by_cases h2 : kv.1 = k
        · simp [Table.erase, Table.find, h, h2, hne]
        · simp [Table.erase, Table.find, h, h2, ih]

theorem Table.find_insert_ne (t : Table) (mid k : String) (e : PendingEntry)
    (hne : k ≠ mid) :
    (t.insert mid e).find k = t.find k := by
  have h3 : mid ≠ k := fun hh => hne hh.symm
  simp [Table.insert, Table.find, h3]
  exact Table.find_erase_ne t mid k hne

/-- handleResponse never removes a table entry: any id present before is
still present afterwards (possibly with its result slots filled). -/
theorem handleResponse_preserves_mem (st : ServerState) (d : InData) (now : Nat)
    (mid : String) (h : st.pending_requests.find mid ≠ none) :
    ((handleResponse st d now).1).pending_requests.find mid ≠ none := by
  unfold handleResponse
  cases hfind : st.pending_requests.find d.messageId with
  | none => simpa using h
  | some entry =>
      simp only
      by_cases hek : mid = d.messageId
      · subst hek
        simp [Table.find_insert_self]
      · rw [Table.find_insert_ne _ _ _ _ hek]
        exact h

/-- Arrivals during a suspension (executor responses) never remove a
table entry either. -/
theorem applyArrivals_preserves_mem (st : ServerState) (step : LoopStep)
    (mid : String) (h : st.pending_requests.find mid ≠ none) :
    (applyArrivals st step).pending_requests.find mid ≠ none := by
  unfold applyArrivals
  induction step.arrivals generalizing st with
  | nil => simpa using h
  | cons d rest ih =>
      exact ih _ (handleResponse_preserves_mem st d step.elapsed mid h)

theorem terminalCount_append (a b : List Sent) :
    terminalCount (a ++ b) = terminalCount a + terminalCount b := by
  simp [terminalCount, List.filter_append]

theorem terminalCount_heartbeatOut (st : ServerState) (mid : String) :
    terminalCount (heartbeatOut st mid) = 0 := by
  unfold heartbeatOut
  cases st.pending_requests.find mid <;> simp [terminalCount, Sent.isTerminal]

theorem terminalCount_hbOuts (st : ServerState) (mid : String) (p : Prop)
    [Decidable p] :
    terminalCount (if p then heartbeatOut st mid else []) = 0 := by
  by_cases h : p
  · simpa [h] using terminalCount_heartbeatOut st mid
  · simp [h, terminalCount]

theorem resolveCheck_terminal (entry : PendingEntry) (conn : Nat) (mid : String)
    (out : Sent) (h : resolveCheck entry conn mid = some out) :
    out.isTerminal = true := by
  unfold resolveCheck at h
  by_cases h1 : entry.type = "focus_tab"
  · simp [h1] at h
    cases hs : entry.success with
    | none => rw [hs] at h; simp at h
    | some b => rw [hs] at h; simp at h; simp [← h, Sent.isTerminal]
  · by_cases h2 : entry.type = "debug_tabs"
    · simp [h1, h2] at h
      cases hs : entry.tabs with
      | none => rw [hs] at h; simp at h
      | some ts => rw [hs] at h; simp at h; simp [← h, Sent.isTerminal]
    · simp [h1, h2] at h
      cases hs : entry.response with
      | none => rw [hs] at h; simp at h
      | some r => rw [hs] at h; simp at h; simp [← h, Sent.isTerminal]

/-- The cli_request wait loop always reaches a terminal transition once
the iteration schedule passes the timeout: it exits by timeout or by
resolution, having removed the entry and sent exactly one terminal
envelope.  The executor-response arrivals interleaved with the loop never
remove the entry themselves, so the silent removed exit is unreachable
here. -/
theorem waitLoop_resolves (conn : Nat) (mid : String) (timeout : Nat)
    (steps : List LoopStep) (lastHb : Nat) (st : ServerState)
    (hmem : st.pending_requests.find mid ≠ none)
    (hex : ∃ s ∈ steps, timeout < s.elapsed) :
    ((waitLoop conn mid timeout lastHb st steps).2.2 = some .timedOut ∨
      (waitLoop conn mid timeout lastHb st steps).2.2 = some .resolved) ∧
    ((waitLoop conn mid timeout lastHb st steps).1).pending_requests.find mid = none ∧
    terminalCount (waitLoop conn mid timeout lastHb st steps).2.1 = 1 := by
  induction steps generalizing lastHb st with
  | nil => simp at hex
  | cons step rest ih =>
      have hmem2 : (applyArrivals st step).pending_requests.find mid ≠ none :=
        applyArrivals_preserves_mem st step mid hmem
      cases hfind : (applyArrivals st step).pending_requests.find mid with
      | none => exact absurd hfind hmem2
      | some entry =>
          by_cases hti : timeout < step.elapsed
          · simp only [waitLoop, hfind]
            rw [if_pos hti]
            refine ⟨Or.inl rfl, Table.find_erase_self _ _, ?_⟩
            simp [terminalCount, Sent.isTerminal]
          · cases hres : resolveCheck entry conn mid with
            | some out =>
                simp only [waitLoop, hfind]
                rw [if_neg hti]
                simp only [hres]
                refine ⟨by simp, Table.find_erase_self _ _, ?_⟩
                rw [terminalCount_append, terminalCount_hbOuts]
                simp [terminalCount, resolveCheck_terminal entry conn mid out hres]
            | none =>
                have hex2 : ∃ s ∈ rest, timeout < s.elapsed := by
                  rcases hex with ⟨s, hs, hts⟩
                  rcases List.mem_cons.mp hs with hhead | htail
                  · exact absurd (hhead ▸ hts) hti
                  · exact ⟨s, htail, hts⟩
                have := ih (if lastHb + 10 ≤ step.elapsed then step.elapsed else lastHb)
                  (applyArrivals st step) hmem2 hex2
                simp only [waitLoop, hfind]
                rw [if_neg hti]
                simp only [hres]
                refine ⟨this.1, this.2.1, ?_⟩
                rw [terminalCount_append, terminalCount_hbOuts]
                simpa using this.2.2

/-- C2: for every cli_request received while no executor is registered,
the relay immediately replies with error{error_type:
extension_not_connected} to the submitting client, creates no
pending-request entry, and sends neither an ack nor any heartbeat for
that correlation id. -/
theorem C2_no_executor_fast_fail (st : ServerState) (conn : Nat) (d : InData)
    (now : Nat) (fwdOk : Bool) (steps : List LoopStep)
    (hmt : d.msgType = "cli_request") (hext : st.extension_ws = none) :
    processMessage st conn d now fwdOk steps =
      (st, [.err conn d.messageId "No extension connected" (some "extension_not_connected")]) ∧
    (processMessage st conn d now fwdOk steps).1.pending_requests = st.pending_requests ∧
    ∀ s ∈ (processMessage st conn d now fwdOk steps).2,
      s.isAck = false ∧ s.isHeartbeat = false := by
  have key : processMessage st conn d now fwdOk steps =
      (st, [.err conn d.messageId "No extension connected"
              (some "extension_not_connected")]) := by
    simp [processMessage, hmt, handleCliRequestPre, hext]
  refine ⟨key, by rw [key], ?_⟩
  rw [key]
  intro s hs
  simp at hs
  simp [hs, Sent.isAck, Sent.isHeartbeat]

/-- Witness for C2 at a concrete input: fresh relay state, no executor. -/
theorem C2_witness :
    ({ msgType := "cli_request", messageId := "m1" } : InData).msgType = "cli_request" ∧
    ({} : ServerState).extension_ws = none ∧
    processMessage {} 7 { msgType := "cli_request", messageId := "m1" } 0 true [] =
      ({}, [.err 7 "m1" "No extension connected" (some "extension_not_connected")]) :=
  ⟨rfl, rfl,
    (C2_no_executor_fast_fail {} 7 { msgType := "cli_request", messageId := "m1" }
      0 true [] rfl rfl).1⟩

/-- C5: a response envelope from the executor whose correlation id has no
entry in the pending-request table is dropped: the state is unchanged and
no envelope is sent to any client (the source branch only prints a log
line, so nothing is raised either). -/
theorem C5_unknown_response_dropped (st : ServerState) (conn : Nat) (d : InData)
    (now : Nat) (fwdOk : Bool) (steps : List LoopStep)
    (hmt : d.msgType = "response")
    (hmiss : st.pending_requests.find d.messageId = none) :
    processMessage st conn d now fwdOk steps = (st, []) := by
  simp [processMessage, hmt, handleResponse, hmiss]

/-- Witness for C5 at a concrete input: empty table, unknown id. -/
theorem C5_witness :
    (({} : ServerState).pending_requests.find "ghost" = none) ∧
    processMessage {} 3 { msgType := "response", messageId := "ghost",
                          response := some "late" } 9 true [] = ({}, []) :=
  ⟨rfl,
    C5_unknown_response_dropped {} 3 { msgType := "response", messageId := "ghost",
                                       response := some "late" } 9 true [] rfl rfl⟩

/-- C6 counterexample: a malformed frame followed by a well-formed
cli_request.  The relay processes nothing after the malformed frame (the
leftover list still holds the cli_request and no envelope is sent),
whereas the same cli_request alone is answered — so the connection does
NOT continue to be read after a decode failure, contrary to the claim. -/
theorem C6_counterexample_malformed_stops_reading :
    (readLoop {} 7 [.malformed,
        .ok { msgType := "cli_request", messageId := "m1" } 0 true []]).2.1 = [] ∧
    (readLoop {} 7 [.malformed,
        .ok { msgType := "cli_request", messageId := "m1" } 0 true []]).2.2 =
      [.ok { msgType := "cli_request", messageId := "m1" } 0 true []] ∧
    (readLoop {} 7 [.ok { msgType := "cli_request", messageId := "m1" } 0 true []]).2.1 ≠ [] := by
  refine ⟨rfl, rfl, ?_⟩
  simp [readLoop, processMessage, handleCliRequestPre]

/-- C6 amended: a frame whose payload fails to decode is logged and the
read loop of that connection TERMINATES: json.loads raises inside the
async-for body, the exception propagates to the handler's inner except
clause outside the loop, and the remaining frames of the connection are
never processed.  The relay process itself survives (the exception is
caught). -/
theorem C6_amended_malformed_ends_read_loop (st : ServerState) (conn : Nat)
    (rest : List Frame) :
    readLoop st conn (Frame.malformed :: rest) = (st, [], rest) := rfl

/-- The direct focus_tab wait loop exits at the first iteration past 30s
with exactly the focus_timeout error, no matter what the table holds, and
the entry is still in the table afterwards (the loop body never reads nor
deletes it). -/
theorem focusWait_times_out (conn : Nat) (mid : String) (st : ServerState)
    (steps : List LoopStep)
    (hmem : st.pending_requests.find mid ≠ none)
    (hto : ∃ s ∈ steps, 30 < s.elapsed) :
    (focusWait conn mid st steps).2.1 =
      [.err conn mid "Timeout waiting for focus response" (some "focus_timeout")] ∧
    (focusWait conn mid st steps).2.2 = true ∧
    (focusWait conn mid st steps).1.pending_requests.find mid ≠ none := by
  induction steps generalizing st with
  | nil => simp at hto
  | cons step rest ih =>
      have hmem2 := applyArrivals_preserves_mem st step mid hmem
      by_cases h : 30 < step.elapsed
      · simp only [focusWait]
        rw [if_pos h]
        exact ⟨rfl, rfl, hmem2⟩
      · have hto2 : ∃ s ∈ rest, 30 < s.elapsed := by
          rcases hto with ⟨s, hs, hts⟩
          rcases List.mem_cons.mp hs with hhead | htail
          · exact absurd (hhead ▸ hts) h
          · exact ⟨s, htail, hts⟩
        simp only [focusWait]
        rw [if_neg h]
        exact ih (applyArrivals st step) hmem2 hto2

/-- C10: for a direct focus_tab envelope (not wrapped in a cli_request)
with an executor registered and a successful forward, the relay acks,
forwards, and then — because the wait loop of this branch never examines
the stored executor result — always answers error{error_type:
focus_timeout} once the schedule passes 30s, and the pending entry for
the correlation id is never deleted. -/
theorem C10_focus_direct_ignores_result (st : ServerState) (conn e : Nat)
    (mid : String) (now : Nat) (steps : List LoopStep)
    (hext : st.extension_ws = some e)
    (hto : ∃ s ∈ steps, 30 < s.elapsed) :
    (processMessage st conn { msgType := "focus_tab", messageId := mid } now true steps).2 =
      [.ack conn mid "request_received", .fwd e "focus_tab" mid,
       .err conn mid "Timeout waiting for focus response" (some "focus_timeout")] ∧
    (processMessage st conn { msgType := "focus_tab", messageId := mid }
        now true steps).1.pending_requests.find mid ≠ none := by
  have hmem : ∀ (t : Table) (e0 : PendingEntry),
      (t.insert mid e0).find mid ≠ none := by
    intro t e0
    simp [Table.find_insert_self]
  simp [processMessage, handleFocusTabPre, hext]
  constructor
  · exact (focusWait_times_out conn mid _ steps (hmem _ _) hto).1
  · exact (focusWait_times_out conn mid _ steps (hmem _ _) hto).2.2

/-- Witness for C10 at a concrete input: the executor's success response
arrives and is recorded at 5s (the final entry holds success = true), yet
the reply is the focus_timeout error and the entry survives. -/
theorem C10_witness :
    ((⟨some 0, [], [], [0]⟩ : ServerState).extension_ws = some 0) ∧
    (∃ s ∈ [(⟨5, [{ msgType := "response", messageId := "m1", success := some true }]⟩ :
              LoopStep), ⟨31, []⟩], 30 < s.elapsed) ∧
    (processMessage ⟨some 0, [], [], [0]⟩ 7 { msgType := "focus_tab", messageId := "m1" } 0 true
        [⟨5, [{ msgType := "response", messageId := "m1", success := some true }]⟩,
         ⟨31, []⟩]).2 =
      [.ack 7 "m1" "request_received", .fwd 0 "focus_tab" "m1",
       .err 7 "m1" "Timeout waiting for focus response" (some "focus_timeout")] ∧
    (processMessage ⟨some 0, [], [], [0]⟩ 7 { msgType := "focus_tab", messageId := "m1" } 0 true
        [⟨5, [{ msgType := "response", messageId := "m1", success := some true }]⟩,
         ⟨31, []⟩]).1.pending_requests.find "m1" ≠ none :=
  ⟨rfl, by simp,
    (C10_focus_direct_ignores_result ⟨some 0, [], [], [0]⟩ 7 0 "m1" 0
      [⟨5, [{ msgType := "response", messageId := "m1", success := some true }]⟩,
       ⟨31, []⟩] rfl (by simp)).1,
    (C10_focus_direct_ignores_result ⟨some 0, [], [], [0]⟩ 7 0 "m1" 0
      [⟨5, [{ msgType := "response", messageId := "m1", success := some true }]⟩,
       ⟨31, []⟩] rfl (by simp)).2⟩

/-- C3 counterexample: an accepted inject cli_request whose forward to
the executor fails.  The relay sends the injection_failed error and skips
the wait loop, but — contrary to the claim — the pending entry for the
correlation id is still in the table afterwards (the continue at
server.py line 116 never deletes it). -/
theorem C3_counterexample_entry_not_removed :
    (handleCliRequestPre ⟨some 0, [], [], [0]⟩ 7
        { msgType := "cli_request", messageId := "m1" } 0 false).2.2 =
      CliPre.forwardFailed "injection_failed" ∧
    (handleCliRequestPre ⟨some 0, [], [], [0]⟩ 7
        { msgType := "cli_request", messageId := "m1" } 0 false).2.1 =
      [.ack 7 "m1" "request_received",
       .err 7 "m1" "Failed to forward to extension" (some "injection_failed")] ∧
    (handleCliRequestPre ⟨some 0, [], [], [0]⟩ 7
        { msgType := "cli_request", messageId := "m1" } 0 false).1.pending_requests.find "m1" ≠
      none := by
  decide

/-- C3 amended: when the forward of an accepted cli_request raises, the
relay sends the owning client error{injection_failed} for inject or
error{<kind>_failed} for focus_tab/debug_tabs and does not enter
the wait loop (the outputs are exactly the ack and that error) — but the
correlation id's entry is NOT removed from the pending-request table; it
remains there indefinitely. -/
theorem C3_amended_forward_failure (st : ServerState) (conn e : Nat) (d : InData)
    (now : Nat) (steps : List LoopStep)
    (hmt : d.msgType = "cli_request") (hext : st.extension_ws = some e)
    (hkind : d.request_type.getD "inject" = "inject" ∨
             d.request_type.getD "inject" = "focus_tab" ∨
             d.request_type.getD "inject" = "debug_tabs") :
    (processMessage st conn d now false steps).2 =
      [.ack conn d.messageId "request_received",
       .err conn d.messageId "Failed to forward to extension"
         (some (if d.request_type.getD "inject" = "inject" then "injection_failed"
                else d.request_type.getD "inject" ++ "_failed"))] ∧
    (processMessage st conn d now false steps).1.pending_requests.find d.messageId ≠ none := by
  rcases hkind with hk | hk | hk <;>
    simp [processMessage, hmt, handleCliRequestPre, hext, hk, Table.find_insert_self]

/-- Witness for C3 amended at a concrete input: focus_tab kind, failing
forward, error_type focus_tab_failed, entry still present. -/
theorem C3_witness :
    (({ msgType := "cli_request", messageId := "m2",
        request_type := some "focus_tab" } : InData).msgType = "cli_request") ∧
    ((⟨some 4, [], [], [4]⟩ : ServerState).extension_ws = some 4) ∧
    (processMessage ⟨some 4, [], [], [4]⟩ 9
        { msgType := "cli_request", messageId := "m2", request_type := some "focus_tab" }
        0 false []).2 =
      [.ack 9 "m2" "request_received",
       .err 9 "m2" "Failed to forward to extension" (some "focus_tab_failed")] ∧
    (processMessage ⟨some 4, [], [], [4]⟩ 9
        { msgType := "cli_request", messageId := "m2", request_type := some "focus_tab" }
        0 false []).1.pending_requests.find "m2" ≠ none := by
  refine ⟨rfl, rfl, ?_, ?_⟩
  · have := (C3_amended_forward_failure ⟨some 4, [], [], [4]⟩ 9 4
      { msgType := "cli_request", messageId := "m2", request_type := some "focus_tab" }
      0 [] rfl rfl (Or.inr (Or.inl rfl))).1
    simpa using this
  · exact (C3_amended_forward_failure ⟨some 4, [], [], [4]⟩ 9 4
      { msgType := "cli_request", messageId := "m2", request_type := some "focus_tab" }
      0 [] rfl rfl (Or.inr (Or.inl rfl))).2

/-- C4 counterexample: a cli_request carrying request_type focus_tab with
an executor registered and a successful forward enters the wait loop with
the uniform 300s timeout of server.py line 135 — not a timeout in the
10-30s range the claim requires for focus_tab. -/
theorem C4_counterexample_focus_timeout_300 :
    (handleCliRequestPre ⟨some 0, [], [], [0]⟩ 7
        { msgType := "cli_request", messageId := "m1", request_type := some "focus_tab" }
        0 true).2.2 = CliPre.enterLoop 300 10 ∧
    ¬ 300 ≤ 30 := by
  decide

/-- C4 amended: every accepted cli_request that reaches the wait loop
does so with the single timeout of 300s and heartbeat interval of 10s,
for all three request kinds alike; the short timeouts apply only to the
direct focus_tab (30s) and debug_tabs (10s) envelope types, whose loops
exit at the first iteration past their bound. -/
theorem C4_amended_uniform_timeout :
    (∀ (st : ServerState) (conn e : Nat) (d : InData) (now : Nat),
      st.extension_ws = some e →
      (d.request_type.getD "inject" = "inject" ∨
       d.request_type.getD "inject" = "focus_tab" ∨
       d.request_type.getD "inject" = "debug_tabs") →
      (handleCliRequestPre st conn d now true).2.2 = CliPre.enterLoop 300 10) ∧
    (∀ (conn : Nat) (mid : String) (st : ServerState) (step : LoopStep)
        (rest : List LoopStep), 30 < step.elapsed →
      (focusWait conn mid st (step :: rest)).2.1 =
        [.err conn mid "Timeout waiting for focus response" (some "focus_timeout")]) ∧
    (∀ (conn : Nat) (mid : String) (st : ServerState) (step : LoopStep)
        (rest : List LoopStep), 10 < step.elapsed →
      (debugWait conn mid st (step :: rest)).2.1 =
        [.err conn mid "Timeout waiting for debug response" (some "debug_timeout")]) := by
  refine ⟨?_, ?_, ?_⟩
  · intro st conn e d now hext hkind
    rcases hkind with hk | hk | hk <;> simp [handleCliRequestPre, hext, hk]
  · intro conn mid st step rest h
    simp only [focusWait]
    rw [if_pos h]
  · intro conn mid st step rest h
    simp only [debugWait]
    rw [if_pos h]

/-- Witness for C4 amended at a concrete input: a debug_tabs kind wrapped
in a cli_request still gets the 300s loop. -/
theorem C4_witness :
    ((⟨some 2, [], [], [2]⟩ : ServerState).extension_ws = some 2) ∧
    (handleCliRequestPre ⟨some 2, [], [], [2]⟩ 8
        { msgType := "cli_request", messageId := "m3", request_type := some "debug_tabs" }
        0 true).2.2 = CliPre.enterLoop 300 10 :=
  ⟨rfl,
    C4_amended_uniform_timeout.1 ⟨some 2, [], [], [2]⟩ 8 2
      { msgType := "cli_request", messageId := "m3", request_type := some "debug_tabs" }
      0 rfl (Or.inr (Or.inr rfl))⟩

/-- C7 counterexample: executor A (connection 1) registers, executor B
(connection 2) supersedes it, then the STALE connection 1 closes.  Its
handler's finally clause still has is_extension = True, so it clears
extension_ws — wiping out connection 2's current registration, contrary
to the claim that a superseded executor's disconnect leaves the current
registration alone. -/
theorem C7_counterexample_stale_disconnect_clears :
    (handleRegister ({} : ServerState) 1 "r1").1.extension_ws = some 1 ∧
    (handleRegister (handleRegister ({} : ServerState) 1 "r1").1 2 "r2").1.extension_ws =
      some 2 ∧
    (handleDisconnect
        (handleRegister (handleRegister ({} : ServerState) 1 "r1").1 2 "r2").1
        1).extension_ws = none := by
  decide

/-- C7 amended: registration is last-writer-wins (an extension_register
always makes its connection the executor slot) and forwards go to the
connection currently in the slot; but the slot is cleared when ANY
connection that has ever registered as an executor closes — including a
superseded, no-longer-current one — because the finally clause tests the
per-connection is_extension flag, not identity with the current slot. -/
theorem C7_amended_registration :
    (∀ (st : ServerState) (c : Nat) (mid : String),
      (handleRegister st c mid).1.extension_ws = some c ∧
      (handleRegister st c mid).2 = [.ack c mid "extension_registered"]) ∧
    (∀ (st : ServerState) (conn e : Nat) (d : InData) (now : Nat),
      st.extension_ws = some e → d.request_type.getD "inject" = "inject" →
      (handleCliRequestPre st conn d now true).2.1 =
        [.ack conn d.messageId "request_received", .fwd e "inject" d.messageId]) ∧
    (∀ (st : ServerState) (c : Nat), st.registered.contains c = true →
      (handleDisconnect st c).extension_ws = none) := by
  refine ⟨?_, ?_, ?_⟩
  · intro st c mid
    exact ⟨rfl, rfl⟩
  · intro st conn e d now hext hk
    simp [handleCliRequestPre, hext, hk]
  · intro st c hc
    have hm : c ∈ st.registered := by simpa using hc
    simp [handleDisconnect, hm]

/-- Witness for C7 amended at a concrete input: after 1 then 2 register,
an inject forward goes to connection 2 only, and disconnecting the
ever-registered connection 1 clears the slot. -/
theorem C7_witness :
    ((⟨some 2, [], [], [2, 1]⟩ : ServerState).extension_ws = some 2) ∧
    (handleCliRequestPre ⟨some 2, [], [], [2, 1]⟩ 7
        { msgType := "cli_request", messageId := "m1" } 0 true).2.1 =
      [.ack 7 "m1" "request_received", .fwd 2 "inject" "m1"] ∧
    ((⟨some 2, [], [], [2, 1]⟩ : ServerState).registered.contains 1 = true) ∧
    (handleDisconnect ⟨some 2, [], [], [2, 1]⟩ 1).extension_ws = none :=
  ⟨rfl,
    C7_amended_registration.2.1 ⟨some 2, [], [], [2, 1]⟩ 7 2
      { msgType := "cli_request", messageId := "m1" } 0 rfl rfl,
    by decide,
    C7_amended_registration.2.2 ⟨some 2, [], [], [2, 1]⟩ 1 (by decide)⟩

/-- C8 counterexample: the chatgpt_cli driver's first frame after the
cli_request is a response (no ack ever seen) and the driver returns it as
the result instead of failing with a protocol violation; the tab-manager
driver's first frame is a heartbeat and it just keeps waiting. -/
theorem C8_counterexample_response_without_ack :
    cliDriverFirstFrame { msgType := "response", messageId := "m1",
                          response := some "pong" } =
      CliDriverOutcome.result (some "pong") ∧
    focusDriverStep "m" { msgType := "heartbeat", messageId := "m" } =
      DriverStep.keepWaiting := by
  decide

/-- C8 amended: neither client driver enforces ack-first and neither
raises a protocol-violation error.  chatgpt_cli reads exactly one frame
and treats it as the result exactly when its type is response (anything
else, an ack included, is merely printed as unexpected); the tab-manager
driver skips every frame that is not a response matching its correlation
id — whatever its type and position — and returns the success flag of the
first matching response. -/
theorem C8_amended_driver_behavior :
    (∀ d : InData, d.msgType = "response" →
      cliDriverFirstFrame d = CliDriverOutcome.result d.response) ∧
    (∀ d : InData, d.msgType ≠ "response" →
      cliDriverFirstFrame d = CliDriverOutcome.unexpected) ∧
    (∀ (mid : String) (pre : List InData) (d : InData) (rest : List InData),
      (∀ f ∈ pre, focusDriverStep mid f = .keepWaiting) →
      d.messageId = mid → d.msgType = "response" →
      focusDriverRun mid (pre ++ d :: rest) = some (d.success.getD false)) := by
  refine ⟨?_, ?_, ?_⟩
  · intro d h
    simp [cliDriverFirstFrame, h]
  · intro d h
    simp [cliDriverFirstFrame, h]
  · intro mid pre d rest hpre hid hmt
    induction pre with
    | nil =>
        simp [focusDriverRun, focusDriverStep, hid, hmt]
    | cons f fs ih =>
        have hf : focusDriverStep mid f = .keepWaiting := hpre f (by simp)
        have hfs : ∀ g ∈ fs, focusDriverStep mid g = .keepWaiting :=
          fun g hg => hpre g (by simp [hg])
        simpa [focusDriverRun, hf] using ih hfs

/-- Witness for C8 amended at a concrete input: an error frame and a
heartbeat precede the matching response; the run returns its success. -/
theorem C8_witness :
    (∀ f ∈ [({ msgType := "error", messageId := "m9", error := some "transient" } : InData),
            { msgType := "heartbeat", messageId := "m9" }],
      focusDriverStep "m9" f = .keepWaiting) ∧
    (({ msgType := "response", messageId := "m9", success := some true } : InData).messageId =
      "m9") ∧
    focusDriverRun "m9"
        ([{ msgType := "error", messageId := "m9", error := some "transient" },
          { msgType := "heartbeat", messageId := "m9" }] ++
         [({ msgType := "response", messageId := "m9", success := some true } : InData)]) =
      some true :=
  ⟨by decide, rfl,
    C8_amended_driver_behavior.2.2 "m9"
      [{ msgType := "error", messageId := "m9", error := some "transient" },
       { msgType := "heartbeat", messageId := "m9" }]
      { msgType := "response", messageId := "m9", success := some true } []
      (by decide) rfl rfl⟩

/-- C1 counterexample: an accepted inject cli_request whose forward
fails.  The handler finishes this message having sent its one terminal
error, yet the created pending entry is still in the table — and stays
there: the wait loop (the only code that deletes entries) was never
entered, there is no separate timeout sweep in the relay, and the
executor-response branch never deletes.  So not every created entry
leaves the table, contrary to the claim. -/
theorem C1_counterexample_forward_failure_entry_leaks :
    (processMessage ⟨some 0, [], [], [0]⟩ 7
        { msgType := "cli_request", messageId := "m1" } 0 false
        [⟨100000, []⟩]).1.pending_requests.find "m1" ≠ none ∧
    (processMessage ⟨some 0, [], [], [0]⟩ 7
        { msgType := "cli_request", messageId := "m1" } 0 false
        [⟨100000, []⟩]).2 =
      [.ack 7 "m1" "request_received",
       .err 7 "m1" "Failed to forward to extension" (some "injection_failed")] := by
  refine ⟨?_, by decide⟩
  decide

/-- C1 amended: for every accepted cli_request whose forward to the
executor succeeds, exactly one terminal envelope is sent to the owning
client and the pending entry is removed (exactly once) by the wait loop,
via resolution or its 300s timeout.  When the forward fails, exactly one
terminal error is still sent, but the created entry never leaves the
table: the wait loop is the only remover, it is not entered on that path,
and the executor-response branch never removes entries. -/
theorem C1_amended_terminal_resolution :
    (∀ (st : ServerState) (conn e : Nat) (d : InData) (now : Nat) (steps : List LoopStep),
      d.msgType = "cli_request" → st.extension_ws = some e →
      (d.request_type.getD "inject" = "inject" ∨
       d.request_type.getD "inject" = "focus_tab" ∨
       d.request_type.getD "inject" = "debug_tabs") →
      (∃ s ∈ steps, 300 < s.elapsed) →
      terminalCount (processMessage st conn d now true steps).2 = 1 ∧
      (processMessage st conn d now true steps).1.pending_requests.find d.messageId = none) ∧
    (∀ (st : ServerState) (conn e : Nat) (d : InData) (now : Nat) (steps : List LoopStep),
      d.msgType = "cli_request" → st.extension_ws = some e →
      (d.request_type.getD "inject" = "inject" ∨
       d.request_type.getD "inject" = "focus_tab" ∨
       d.request_type.getD "inject" = "debug_tabs") →
      terminalCount (processMessage st conn d now false steps).2 = 1 ∧
      (processMessage st conn d now false steps).1.pending_requests.find d.messageId ≠ none) ∧
    (∀ (st : ServerState) (d : InData) (now : Nat) (mid : String),
      st.pending_requests.find mid ≠ none →
      ((handleResponse st d now).1).pending_requests.find mid ≠ none) := by
  have hmem : ∀ (mid : String) (t : Table) (e0 : PendingEntry),
      (t.insert mid e0).find mid ≠ none := by
    intro mid t e0
    simp [Table.find_insert_self]
  refine ⟨?_, ?_, ?_⟩
  · intro st conn e d now steps hmt hext hkind hto
    rcases hkind with hk | hk | hk <;>
    · simp only [processMessage, hmt, handleCliRequestPre, hext, hk]
      simp only [String.reduceEq, reduceIte, if_true, if_false]
      constructor
      · simpa [terminalCount] using
          (waitLoop_resolves conn d.messageId 300 steps 0 _ (hmem _ _ _) hto).2.2
      · exact (waitLoop_resolves conn d.messageId 300 steps 0 _ (hmem _ _ _) hto).2.1
  · intro st conn e d now steps hmt hext hkind
    rcases hkind with hk | hk | hk <;>
      simp [processMessage, hmt, handleCliRequestPre, hext, hk, terminalCount,
        Sent.isTerminal, Table.find_insert_self]
  · intro st d now mid h
    exact handleResponse_preserves_mem st d now mid h

/-- Witness for C1 amended at a concrete input: accepted inject, forward
succeeds, nothing ever resolves it, schedule passes 300s — exactly one
terminal envelope (the response_timeout error) and the entry is gone. -/
theorem C1_amended_witness :
    ((⟨some 0, [], [], [0]⟩ : ServerState).extension_ws = some 0) ∧
    (∃ s ∈ [(⟨301, []⟩ : LoopStep)], 300 < s.elapsed) ∧
    terminalCount (processMessage ⟨some 0, [], [], [0]⟩ 7
        { msgType := "cli_request", messageId := "m1" } 0 true [⟨301, []⟩]).2 = 1 ∧
    (processMessage ⟨some 0, [], [], [0]⟩ 7
        { msgType := "cli_request", messageId := "m1" } 0 true
        [⟨301, []⟩]).1.pending_requests.find "m1" = none :=
  ⟨rfl, by simp,
    (C1_amended_terminal_resolution.1 ⟨some 0, [], [], [0]⟩ 7 0
      { msgType := "cli_request", messageId := "m1" } 0 [⟨301, []⟩]
      rfl rfl (Or.inl rfl) (by simp)).1,
    (C1_amended_terminal_resolution.1 ⟨some 0, [], [], [0]⟩ 7 0
      { msgType := "cli_request", messageId := "m1" } 0 [⟨301, []⟩]
      rfl rfl (Or.inl rfl) (by simp)).2⟩

/- The relay's message handling never consults client_ws_list (the only
reads in the source are a log line and the disconnect-time removal), so
every handler commutes with replacing that list.  These lemmas chain up
to the read loop. -/

theorem handleRegister_cwl (st : ServerState) (l : List Nat) (conn : Nat) (mid : String) :
    handleRegister { st with client_ws_list := l } conn mid =
      ({ (handleRegister st conn mid).1 with client_ws_list := l },
       (handleRegister st conn mid).2) := rfl

theorem handleResponse_cwl (st : ServerState) (l : List Nat) (d : InData) (now : Nat) :
    handleResponse { st with client_ws_list := l } d now =
      ({ (handleResponse st d now).1 with client_ws_list := l },
       (handleResponse st d now).2) := by
  unfold handleResponse
  cases hfind : st.pending_requests.find d.messageId <;> simp [hfind]

theorem applyArrivals_cwl (st : ServerState) (l : List Nat) (step : LoopStep) :
    applyArrivals { st with client_ws_list := l } step =
      { applyArrivals st step with client_ws_list := l } := by
  unfold applyArrivals
  induction step.arrivals generalizing st with
  | nil => rfl
  | cons d ds ih =>
      simp only [List.foldl_cons]
      rw [show (handleResponse { st with client_ws_list := l } d step.elapsed).1 =
            ({ (handleResponse st d step.elapsed).1 with client_ws_list := l } : ServerState)
          from congrArg Prod.fst (handleResponse_cwl st l d step.elapsed)]
      exact ih _

theorem heartbeatOut_cwl (st : ServerState) (l : List Nat) (mid : String) :
    heartbeatOut { st with client_ws_list := l } mid = heartbeatOut st mid := by
  unfold heartbeatOut
  cases hfind : st.pending_requests.find mid <;> simp [hfind]

theorem waitLoop_cwl (conn : Nat) (mid : String) (timeout : Nat)
    (steps : List LoopStep) (lastHb : Nat) (st : ServerState) (l : List Nat) :
    waitLoop conn mid timeout lastHb { st with client_ws_list := l } steps =
      ({ (waitLoop conn mid timeout lastHb st steps).1 with client_ws_list := l },
       (waitLoop conn mid timeout lastHb st steps).2.1,
       (waitLoop conn mid timeout lastHb st steps).2.2) := by
  induction steps generalizing lastHb st with
  | nil => rfl
  | cons step rest ih =>
      simp only [waitLoop, applyArrivals_cwl]
      cases hfind : (applyArrivals st step).pending_requests.find mid with
      | none => simp [hfind]
      | some entry =>
          simp only [hfind]
          by_cases hti : timeout < step.elapsed
          · rw [if_pos hti, if_pos hti]
          · rw [if_neg hti, if_neg hti]
            cases hres : resolveCheck entry conn mid with
            | some out => simp [hres, heartbeatOut_cwl]
            | none => simp [hres, heartbeatOut_cwl, ih]

theorem handleCliRequestPre_cwl (st : ServerState) (l : List Nat) (conn : Nat)
    (d : InData) (now : Nat) (fwdOk : Bool) :
    handleCliRequestPre { st with client_ws_list := l } conn d now fwdOk =
      ({ (handleCliRequestPre st conn d now fwdOk).1 with client_ws_list := l },
       (handleCliRequestPre st conn d now fwdOk).2.1,
       (handleCliRequestPre st conn d now fwdOk).2.2) := by
  cases hext : st.extension_ws with
  | none => simp [handleCliRequestPre, hext]
  | some e =>
      by_cases h1 : d.request_type.getD "inject" = "inject"
      · cases fwdOk <;> simp [handleCliRequestPre, hext, h1]
      · by_cases h2 : d.request_type.getD "inject" = "focus_tab" ∨
            d.request_type.getD "inject" = "debug_tabs"
        · cases fwdOk <;> simp [handleCliRequestPre, hext, h1, h2]
        · simp [handleCliRequestPre, hext, h1, h2]

theorem handleFocusTabPre_cwl (st : ServerState) (l : List Nat) (conn : Nat)
    (mid : String) (now : Nat) (fwdOk : Bool) :
    handleFocusTabPre { st with client_ws_list := l } conn mid now fwdOk =
      ({ (handleFocusTabPre st conn mid now fwdOk).1 with client_ws_list := l },
       (handleFocusTabPre st conn mid now fwdOk).2.1,
       (handleFocusTabPre st conn mid now fwdOk).2.2) := by
  cases hext : st.extension_ws with
  | none => simp [handleFocusTabPre, hext]
  | some e => cases fwdOk <;> simp [handleFocusTabPre, hext]

theorem handleDebugTabsPre_cwl (st : ServerState) (l : List Nat) (conn : Nat)
    (mid : String) (now : Nat) (fwdOk : Bool) :
    handleDebugTabsPre { st with client_ws_list := l } conn mid now fwdOk =
      ({ (handleDebugTabsPre st conn mid now fwdOk).1 with client_ws_list := l },
       (handleDebugTabsPre st conn mid now fwdOk).2.1,
       (handleDebugTabsPre st conn mid now fwdOk).2.2) := by
  cases hext : st.extension_ws with
  | none => simp [handleDebugTabsPre, hext]
  | some e => cases fwdOk <;> simp [handleDebugTabsPre, hext]

theorem focusWait_cwl (conn : Nat) (mid : String) (st : ServerState)
    (steps : List LoopStep) (l : List Nat) :
    focusWait conn mid { st with client_ws_list := l } steps =
      ({ (focusWait conn mid st steps).1 with client_ws_list := l },
       (focusWait conn mid st steps).2.1,
       (focusWait conn mid st steps).2.2) := by
  induction steps generalizing st with
  | nil => rfl
  | cons step rest ih =>
      simp only [focusWait, applyArrivals_cwl]
      by_cases h : 30 < step.elapsed
      · rw [if_pos h, if_pos h]
      · rw [if_neg h, if_neg h]
        exact ih _

theorem debugWait_cwl (conn : Nat) (mid : String) (st : ServerState)
    (steps : List LoopStep) (l : List Nat) :
    debugWait conn mid { st with client_ws_list := l } steps =
      ({ (debugWait conn mid st steps).1 with client_ws_list := l },
       (debugWait conn mid st steps).2.1,
       (debugWait conn mid st steps).2.2) := by
  induction steps generalizing st with
  | nil => rfl
  | cons step rest ih =>
      simp only [debugWait, applyArrivals_cwl]
      by_cases h : 10 < step.elapsed
      · rw [if_pos h, if_pos h]
      · rw [if_neg h, if_neg h]
        cases hfind : (applyArrivals st step).pending_requests.find mid with
        | none => simp [hfind, ih]
        | some entry =>
            cases htabs : entry.tabs with
            | none => simp [hfind, htabs, ih]
            | some ts => simp [hfind, htabs]

theorem processMessage_cwl (st : ServerState) (l : List Nat) (conn : Nat)
    (d : InData) (now : Nat) (fwdOk : Bool) (steps : List LoopStep) :
    processMessage { st with client_ws_list := l } conn d now fwdOk steps =
      ({ (processMessage st conn d now fwdOk steps).1 with client_ws_list := l },
       (processMessage st conn d now fwdOk steps).2) := by
  unfold processMessage
  by_cases h1 : d.msgType = "extension_register"
  · simp [h1, handleRegister_cwl]
  · by_cases h2 : d.msgType = "response"
    · simp [h1, h2, handleResponse_cwl]
    · by_cases h3 : d.msgType = "cli_request"
      · simp only [h1, h2, h3, if_false, if_true, if_neg, if_pos,
          handleCliRequestPre_cwl]
        cases hpre : (handleCliRequestPre st conn d now fwdOk).2.2 with
        | enterLoop timeout hb => simp [waitLoop_cwl]
        | noExtension => simp
        | forwardFailed et => simp
        | unknownKind => simp
      · by_cases h4 : d.msgType = "focus_tab"
        · simp only [h1, h2, h3, h4, if_false, if_true, if_neg, if_pos,
            handleFocusTabPre_cwl]
          cases hpre : (handleFocusTabPre st conn d.messageId now fwdOk).2.2 <;>
            simp [hpre, focusWait_cwl]
        · by_cases h5 : d.msgType = "debug_tabs"
          · simp only [h1, h2, h3, h4, h5, if_false, if_true, if_neg, if_pos,
              handleDebugTabsPre_cwl]
            cases hpre : (handleDebugTabsPre st conn d.messageId now fwdOk).2.2 <;>
              simp [hpre, debugWait_cwl]
          · simp [h1, h2, h3, h4, h5]

theorem readLoop_cwl (conn : Nat) (frames : List Frame) (st : ServerState)
    (l : List Nat) :
    readLoop { st with client_ws_list := l } conn frames =
      ({ (readLoop st conn frames).1 with client_ws_list := l },
       (readLoop st conn frames).2.1,
       (readLoop st conn frames).2.2) := by
  induction frames generalizing st with
  | nil => rfl
  | cons f rest ih =>
      cases f with
      | malformed => rfl
      | ok d now fwdOk steps =>
          simp only [readLoop, processMessage_cwl]
          simp [ih]

/-- C9 counterexample: with 50 client connections tracked in
client_ws_list, a further connection is NOT refused: the relay reads its
cli_request envelope and answers it (here with extension_not_connected),
so envelopes are read and replied to past the claimed ceiling, and there
is no refusal path in the handler at all. -/
theorem C9_counterexample_51st_connection_served :
    (List.range 50).length = 50 ∧
    (readLoop ⟨none, [], List.range 50, []⟩ 99
        [.ok { msgType := "cli_request", messageId := "m1" } 0 true []]).2.1 =
      [.err 99 "m1" "No extension connected" (some "extension_not_connected")] := by
  constructor
  · decide
  · decide

/-- C9 amended: the relay has no connection ceiling.  The handler's
behavior is completely independent of the tracked client list — the read
loop's replies, leftover frames, and all relay-core state (executor slot,
pending table, registration flags) are the same whatever client_ws_list
holds (the source in fact never appends to that list, so no concurrent
count is even tracked) — and merely connecting, with no frames sent,
creates no pending entry and changes nothing. -/
theorem C9_amended_no_ceiling :
    (∀ (st : ServerState) (l : List Nat) (conn : Nat) (frames : List Frame),
      readLoop { st with client_ws_list := l } conn frames =
        ({ (readLoop st conn frames).1 with client_ws_list := l },
         (readLoop st conn frames).2.1,
         (readLoop st conn frames).2.2)) ∧
    (∀ (st : ServerState) (conn : Nat), readLoop st conn [] = (st, [], [])) := by
  constructor
  · intro st l conn frames
    exact readLoop_cwl conn frames st l
  · intro st conn
    rfl

end TextGenHub
